import Mathlib

/-!
Shallow embedding of the repond-events chain scheduler, event lifecycle and
value/variable engines, translated from `src/internal.ts`,
`src/effects/liveEvents.ts`, `src/effects/chains.ts`, `src/valueHelpers.ts`
and `src/variableHelpers.ts`.
-/

/-- The lifecycle state of a live event (`RunMode` in `src/types.ts`). -/
inductive RunMode where
  | add
  | start
  | end_
  | pause
  | unpause
  | suspend
  | unsuspend
  | cancel
  | skip
deriving DecidableEq, Repr

/-- JS numbers as used for event times: a finite value or `Infinity`.
Negative infinity and NaN never arise on the embedded code paths (the
subtracted operands are always finite `Date.now`/elapsed-time values). -/
inductive JsNum where
  | num : Int → JsNum
  | inf : JsNum
deriving DecidableEq, Repr

/-- JS subtraction `x - y` where the right operand is finite. -/
def JsNum.subNum : JsNum → Int → JsNum
  | .num a, b => .num (a - b)
  | .inf, _ => .inf

/-- JS addition `x + y` where the left operand is finite. -/
def JsNum.numAdd : Int → JsNum → JsNum
  | a, .num b => .num (a + b)
  | _, .inf => .inf

/-- JS multiplication `x * 1000` (`Infinity * 1000 = Infinity`). -/
def JsNum.mulThousand : JsNum → JsNum
  | .num a => .num (a * 1000)
  | .inf => .inf

/-- JS comparison `t >= g` with a finite left operand. -/
def JsNum.intGe (t : Int) : JsNum → Bool
  | .num g => decide (g ≤ t)
  | .inf => false

/-- Plain JS data appearing in `params` maps: primitives, plain objects, and
`ValueBlock`s (objects tagged `type === "value"` with a group, a name and
nested params), per `src/types.ts` and `isValueBlock` in `src/valueHelpers.ts`. -/
inductive JsValue where
  | str : String → JsValue
  | int : Int → JsValue
  | boolean : Bool → JsValue
  | null : JsValue
  | obj : List (String × JsValue) → JsValue
  | vblock : String → String → List (String × JsValue) → JsValue

abbrev ParamMap := List (String × JsValue)

/-- A repond state path `[itemType, itemId, itemProp]`. -/
abbrev TimePath := String × String × String

/-- `RunModeOptions` from `src/types.ts`. -/
structure RunModeOptions where
  runMode : RunMode
  runBy : Option String := none
deriving DecidableEq, Repr

/-- `EventBlockOptions` from `src/types.ts`; absent keys are `none`. -/
structure EventBlockOptions where
  chainId : Option String := none
  liveId : Option String := none
  addedBy : Option String := none
  isParallel : Option Bool := none
  timePath : Option TimePath := none
  hasPriority : Option Bool := none
  duration : Option JsNum := none
  isFast : Option Bool := none
  parentChainId : Option String := none

/-- `EventBlock` from `src/types.ts` (an event instance as plain data). -/
structure EventBlock where
  group : String
  name : String
  params : ParamMap := []
  options : EventBlockOptions := {}

/-- An event type definition from the registry
(`meta.allEventTypeGroups[group][name]`); the user `run` handler is external
code, so handler invocation is modelled as an emitted action instead of a
stored function. -/
structure EventTypeDefinition where
  params : ParamMap := []
  isParallel : Option Bool := none
  duration : Option JsNum := none
  timePath : Option TimePath := none

/-- A value type definition from the registry
(`meta.allValueTypeGroups[group][name]`): default params plus the `run`
function producing the raw value. -/
structure ValueTypeDefinition where
  params : ParamMap := []
  run : ParamMap → JsValue

/-- The registry lookup `meta.allEventTypeGroups[group]?.[name]`. -/
abbrev EventRegistry := String → String → Option EventTypeDefinition

/-- The registry lookup `meta.allValueTypeGroups[group]?.[name]`. -/
abbrev ValueRegistry := String → String → Option ValueTypeDefinition

/-- A live event record, from `stores/liveEvents.ts`. Stored-variable values
of type `number | null` are `Option`s; `goalEndTime` is a number that can be
`Infinity`, checked against `null` defensively by the effects. -/
structure LiveEvent where
  id : String
  chainId : String
  parentChainId : Option String := none
  event : EventBlock
  evaluatedParams : Option ParamMap := none
  isParallel : Bool := false
  duration : Option JsNum := none
  addedBy : Option String := none
  runBy : Option String := none
  nowRunMode : Option RunMode := none
  runModeOptionsWhenReady : Option RunModeOptions := none
  runModeBeforePause : Option RunMode := none
  runModeBeforeSuspend : Option RunMode := none
  addTime : Option Int := none
  readyTime : Option Int := none
  startTime : Option Int := none
  goalEndTime : Option JsNum := some (.num 0)
  pauseTime : Option Int := none
  suspendTime : Option Int := none
  unpauseTime : Option Int := none
  unsuspendTime : Option Int := none
  elapsedTimePath : Option TimePath := none

/-- A chain record, from `stores/chains.ts` plus the `parentChainId` and
`variablesByName` fields written by `internal.ts`/`variableHelpers.ts`.
`variablesByName` values may be explicitly stored `undefined` (`none`). -/
structure Chain where
  id : String
  liveEventIds : List String := []
  canAutoActivate : Bool := true
  duplicateEventsToAdd : List (String × EventBlock) := []
  parentChainId : Option String := none
  variablesByName : List (String × Option JsValue) := []

/-- The slice of repond state the embedded code reads and writes:
the `chains` and `liveEvents` item stores, as association lists keyed by id. -/
structure AllState where
  chains : List (String × Chain) := []
  liveEvents : List (String × LiveEvent) := []

/-- `getState("chains", chainId)`. -/
def getChainState (st : AllState) (chainId : String) : Option Chain :=
  st.chains.lookup chainId

/-- `getState("liveEvents", liveId)`. -/
def getLiveEventState (st : AllState) (liveId : String) : Option LiveEvent :=
  st.liveEvents.lookup liveId

/-- `setState` on a single existing record: replace the entry for `k`. -/
def updateAssoc {α : Type} (l : List (String × α)) (k : String) (v : α) :
    List (String × α) :=
  l.map fun p => if p.1 = k then (p.1, v) else p

/-- `delete map[k]` / `removeItem`. -/
def eraseAssoc {α : Type} (l : List (String × α)) (k : String) :
    List (String × α) :=
  l.filter fun p => p.1 ≠ k

/-- `event?.nowRunMode === "add"` for a possibly-missing live event. -/
def liveEventCanStart (ev? : Option LiveEvent) : Bool :=
  match ev? with
  | some ev => decide (ev.nowRunMode = some RunMode.add)
  | none => false

/-- The loop condition of the `for` loop in `findFirstNonActiveEventIndex`
(`src/internal.ts`): the walk stops at a missing event, a non-parallel event
in `"add"`, or a parallel event not in `"add"`. -/
def findNonActiveLoopCheck (state : AllState) (liveId : String) : Bool :=
  let eventState := getLiveEventState state liveId
  let eventCanStart := liveEventCanStart eventState
  match eventState with
  | none => true
  | some ev => (!ev.isParallel && eventCanStart) || (ev.isParallel && !eventCanStart)

/-- The `for (let i = 1; ...)` loop of `findFirstNonActiveEventIndex`, over
the tail of the list: the index (relative to the tail) of the first stopping
event, if any. -/
def findNonActiveLoop (state : AllState) : List String → Option Nat
  | [] => none
  | liveId :: rest =>
    if findNonActiveLoopCheck state liveId then some 0
    else (findNonActiveLoop state rest).map (· + 1)

/-- `findFirstNonActiveEventIndex` from `src/internal.ts`. -/
def findFirstNonActiveEventIndex (state : AllState) (liveEventIds : List String) : Nat :=
  match liveEventIds with
  | [] => 0
  | firstId :: rest =>
    let firstEventState := getLiveEventState state firstId
    let firstEventCanStart := liveEventCanStart firstEventState
    let firstMissingOrNotParallel :=
      match firstEventState with
      | none => true
      | some ev => !ev.isParallel
    if firstMissingOrNotParallel && firstEventCanStart then 1
    else if !firstEventCanStart then 0
    else
      match findNonActiveLoop state rest with
      | some i => i + 1
      | none => if firstEventCanStart then rest.length + 1 else 0

/-- `getActiveEventIds` from `src/internal.ts`. -/
def getActiveEventIds (state : AllState) (liveEventIds : List String) : List String :=
  let index := findFirstNonActiveEventIndex state liveEventIds
  if index = 0 then [] else liveEventIds.take index

/-- `getInsertEventIdsAfterActive` from `src/internal.ts`. -/
def getInsertEventIdsAfterActive (state : AllState)
    (liveEventIds newEventIds : List String) : List String :=
  let index := findFirstNonActiveEventIndex state liveEventIds
  liveEventIds.take index ++ newEventIds ++ liveEventIds.drop index

/-- Actions emitted by the lifecycle effect: dispatching the user's `run`
handler for a run mode, and the finalization call. -/
inductive LifecycleAction where
  | dispatchHandler : RunMode → LifecycleAction
  | finalize : LifecycleAction
deriving DecidableEq, Repr

/-- Actions scheduled with `onNextTick`. -/
inductive TickAction where
  | removeLiveEvent : String → TickAction
deriving DecidableEq, Repr

/-- `finalizeEvent` from `src/internal.ts`: filter the live id out of its
chain's `liveEventIds` (when the live event and its chain exist), and
unconditionally schedule removal of the live-event record on the next tick. -/
def finalizeEvent (st : AllState) (liveEventId : String) : AllState × List TickAction :=
  let st' :=
    match getLiveEventState st liveEventId with
    | none => st
    | some liveEventState =>
      let chainId := liveEventState.chainId
      if chainId = "" then st
      else
        match getChainState st chainId with
        | none => st
        | some chainState =>
          let newLiveEventIds := chainState.liveEventIds.filter (fun id => id ≠ liveEventId)
          let newChainState := { chainState with liveEventIds := newLiveEventIds }
          { st with chains := updateAssoc st.chains chainId newChainState }
  (st', [.removeLiveEvent liveEventId])

/-- The `"unpause"`/`"unsuspend"` pre-step of `whenNowRunModeChanges`
(`src/effects/liveEvents.ts`): resolve the effective run mode from
`runModeBeforePause`/`runModeBeforeSuspend` (defaulting to `"start"`), and,
when `goalEndTime` and `pauseTime` are both non-null, set `goalEndTime` to
`elapsedTime + (goalEndTime - pauseTime)`, stamp `unpauseTime`, write the
effective mode into `nowRunMode` and clear the relevant before-mode. -/
def applyUnpauseOrUnsuspend (ev : LiveEvent) (latest : RunMode)
    (nowTime elapsedTime : Int) : LiveEvent × RunMode :=
  let isUnpausing := latest = RunMode.unpause
  let runMode := (if isUnpausing then ev.runModeBeforePause else ev.runModeBeforeSuspend).getD .start
  match ev.goalEndTime, ev.pauseTime with
  | some goalEndTime, some pauseTime =>
    let remainingTime := goalEndTime.subNum pauseTime
    ({ ev with
        goalEndTime := some (JsNum.numAdd elapsedTime remainingTime)
        unpauseTime := some nowTime
        nowRunMode := some runMode
        runModeBeforePause := if isUnpausing then none else ev.runModeBeforePause
        runModeBeforeSuspend := if isUnpausing then ev.runModeBeforeSuspend else none },
      runMode)
  | _, _ => (ev, runMode)

/-- The `"start"` branch of `whenNowRunModeChanges`: on the first start
(`startTime` null) look up the duration (`liveEvent.duration ?? eventType.duration`)
and, when one is set, write `goalEndTime := elapsedTime + duration * 1000`
(the elapsed time read by `getElapsedTime` is always a number); then stamp
`startTime`. -/
def applyStartTransition (ev : LiveEvent) (eventTypeDuration : Option JsNum)
    (elapsedTime nowTime : Int) : LiveEvent :=
  let isFirstStart := ev.startTime = none
  let newGoalEndTime :=
    if isFirstStart then
      match ev.duration.orElse (fun _ => eventTypeDuration) with
      | some foundDuration => some (JsNum.numAdd elapsedTime foundDuration.mulThousand)
      | none => ev.goalEndTime
    else ev.goalEndTime
  { ev with startTime := some nowTime, goalEndTime := newGoalEndTime }

/-- The whole `whenNowRunModeChanges` item effect from
`src/effects/liveEvents.ts`, as a function from the observed live event, the
new and previous `nowRunMode`, the `Date.now()` stamp, the elapsed time and
the registry duration, to the updated record plus the emitted actions. -/
def whenNowRunModeChanges (ev : LiveEvent) (latestRunMode prevRunMode : Option RunMode)
    (nowTime elapsedTime : Int) (eventTypeDuration : Option JsNum) :
    LiveEvent × List LifecycleAction :=
  match latestRunMode with
  | none => (ev, [])
  | some latest =>
    let (ev1, runMode) :=
      if latest = RunMode.unpause ∨ latest = RunMode.unsuspend then
        applyUnpauseOrUnsuspend ev latest nowTime elapsedTime
      else (ev, latest)
    if runMode = RunMode.add then
      ({ ev1 with addTime := some nowTime }, [.dispatchHandler .add])
    else if ev.addTime = none ∨ ev.addTime = some 0 then
      (ev1, [])
    else if runMode = RunMode.start then
      (applyStartTransition ev1 eventTypeDuration elapsedTime nowTime, [.dispatchHandler .start])
    else if runMode = RunMode.pause then
      ({ ev1 with pauseTime := some nowTime, runModeBeforePause := prevRunMode },
        [.dispatchHandler .pause])
    else if runMode = RunMode.suspend then
      ({ ev1 with suspendTime := some nowTime, runModeBeforeSuspend := prevRunMode },
        [.dispatchHandler .suspend])
    else if runMode = RunMode.skip ∨ runMode = RunMode.cancel ∨ runMode = RunMode.end_ then
      (ev1, [.dispatchHandler runMode, .finalize])
    else (ev1, [])

/-- What the time-watcher effect does on one observed tick. -/
inductive WatcherResult where
  | ignore
  | endAndStop
deriving DecidableEq, Repr

/-- The body of `whenElapsedTimeChanges` (`liveEventParamEffects` in
`src/effects/liveEvents.ts`): ignore when the elapsed time is undefined, the
live event (state-and-refs) is missing, `nowRunMode` is one of
end/pause/suspend/cancel/skip/add, `startTime` is null or `goalEndTime` is
null; otherwise, when `elapsedTime >= goalEndTime`, set `nowRunMode := "end"`
and stop the subscription. -/
def whenElapsedTimeChangesTick (ev? : Option LiveEvent) (elapsedTime? : Option Int) :
    WatcherResult :=
  match elapsedTime? with
  | none => .ignore
  | some elapsedTime =>
    match ev? with
    | none => .ignore
    | some ev =>
      if ev.nowRunMode = some RunMode.end_ ∨ ev.nowRunMode = some RunMode.pause ∨
          ev.nowRunMode = some RunMode.suspend ∨ ev.nowRunMode = some RunMode.cancel ∨
          ev.nowRunMode = some RunMode.skip ∨ ev.nowRunMode = some RunMode.add then
        .ignore
      else if ev.startTime = none then .ignore
      else
        match ev.goalEndTime with
        | none => .ignore
        | some goalEndTime =>
          if JsNum.intGe elapsedTime goalEndTime then .endAndStop else .ignore

/-- What the drain block of `whenLiveEventIdsChange` (`src/effects/chains.ts`)
does: whether the chain record was removed, and the argument passed to the
`resolveValueMap` resolver when one is registered (`some none` is a call with
`undefined`). -/
structure DrainResult where
  chainRemoved : Bool
  resolverCalledWith : Option (Option JsValue)

/-- The drain-and-empty block at the top of `whenLiveEventIdsChange`: when the
chain exists and its `liveEventIds` is empty, remove the chain record and
invoke any registered `resolveValueMap[chainId]` resolver with `undefined`. -/
def whenLiveEventIdsChangeDrain (chainState? : Option Chain) (resolverRegistered : Bool) :
    DrainResult :=
  match chainState? with
  | none => ⟨false, none⟩
  | some chainState =>
    if chainState.liveEventIds.length = 0 then
      ⟨true, if resolverRegistered then some none else none⟩
    else ⟨false, none⟩

/-- JS object spread `{ ...base, ...overrides }` on a string-keyed map with
unique keys: the base keys in order with overridden values, then the
override keys that are not in the base. -/
def spreadAssoc {α : Type} (base overrides : List (String × α)) : List (String × α) :=
  (base.map fun p =>
    match overrides.lookup p.1 with
    | some v => (p.1, v)
    | none => p) ++
  overrides.filter fun p => (base.lookup p.1).isNone

/-- `{ ...defaults, ...provided }` on a params map. -/
def mergeParams (defaults provided : ParamMap) : ParamMap :=
  spreadAssoc defaults provided

mutual

/-- `evaluateValue` from `src/valueHelpers.ts`: primitives and plain
(non-`ValueBlock`) objects are returned unchanged; a `ValueBlock` is handed to
`evaluateValueBlock`. The fuel bounds the `ValueBlock` nesting unfolded
through registry defaults (the source recursion has no such bound and a
registry-miss throws; both exhaustion and a miss are `none` here). -/
def evaluateValue (reg : ValueRegistry) (fuel : Nat) (v : JsValue) : Option JsValue :=
  match v with
  | .vblock group name params => evaluateValueBlock reg fuel group name params
  | other => some other
termination_by (fuel, sizeOf v)

/-- `evaluateValueBlock` from `src/valueHelpers.ts`: look up the value type,
merge its default params under the block's params, evaluate the merged map
and invoke the type's `run` on the result. -/
def evaluateValueBlock (reg : ValueRegistry) (fuel : Nat) (group name : String)
    (params : ParamMap) : Option JsValue :=
  match reg group name with
  | none => none
  | some valueDefinition =>
    match fuel with
    | 0 => none
    | fuel' + 1 =>
      match evaluateParams reg fuel' (mergeParams valueDefinition.params params) with
      | none => none
      | some evaluatedParams => some (valueDefinition.run evaluatedParams)
termination_by (fuel, sizeOf params)

/-- `evaluateParams` from `src/valueHelpers.ts`: evaluate each entry's value
with `evaluateValue`, keeping keys and order. -/
def evaluateParams (reg : ValueRegistry) (fuel : Nat) (params : ParamMap) :
    Option ParamMap :=
  match params with
  | [] => some []
  | (key, value) :: rest =>
    match evaluateValue reg fuel value, evaluateParams reg fuel rest with
    | some evaluatedValue, some evaluatedRest => some ((key, evaluatedValue) :: evaluatedRest)
    | _, _ => none
termination_by (fuel, sizeOf params)

end

/-- Per-fast-chain info from `repondEventsMeta.fastChain.nowFastChainsInfoMap`. -/
structure FastChainInfo where
  nowChildFastChainId : Option String := none
  isCanceled : Bool := false
  parentFastChainId : Option String := none
  variablesMap : List (String × Option JsValue) := []

/-- `repondEventsMeta.fastChain`. -/
structure FastChainMeta where
  nowRootFastChainId : Option String := none
  nowRootFastChainParentId : Option String := none
  nowFastChainsInfoMap : List (String × FastChainInfo) := []

/-- The process-wide mutable metadata read by the variable helpers: the named
scope maps and the fast-chain bookkeeping. Stored variable values may be an
explicitly stored `undefined` (`none`). -/
structure EventsMeta where
  variablesByScopesMap : List (String × List (String × Option JsValue)) := []
  fastChain : FastChainMeta := {}

/-- The fast-chain `while` loop of `findVariableInScope`
(`src/variableHelpers.ts`): walk `parentFastChainId` links until a
`variablesMap` has `name` as a key (`some stored`), a missing link ends the
walk (`none`). Fuel bounds the walk (chain links could cycle). -/
def fastChainVariableWalk (meta : FastChainMeta) (name : String) :
    Nat → Option String → Option (Option JsValue)
  | _, none => none
  | 0, some _ => none
  | fuel + 1, some fastChainId =>
    match meta.nowFastChainsInfoMap.lookup fastChainId with
    | none => none
    | some fastChainInfo =>
      match fastChainInfo.variablesMap.lookup name with
      | some stored => some stored
      | none => fastChainVariableWalk meta name fuel fastChainInfo.parentFastChainId

/-- The chain-state `while` loop of `findVariableInScope`: walk
`parentChainId` links until a chain's `variablesByName` has `name` as a key
(the stored value may itself be `undefined`). -/
def chainVariableWalk (st : AllState) (name : String) :
    Nat → Option String → Option (Option JsValue)
  | _, none => none
  | 0, some _ => none
  | fuel + 1, some chainId =>
    match getChainState st chainId with
    | none => none
    | some chainState =>
      match chainState.variablesByName.lookup name with
      | some stored => some stored
      | none => chainVariableWalk st name fuel chainState.parentChainId

/-- The final fall-through block of `findVariableInScope`: when the walks
yielded `undefined`, read `variablesByScopesMap[scope][name]`. -/
def scopeMapVariableLookup (meta : EventsMeta) (scope name : String) : Option JsValue :=
  match meta.variablesByScopesMap.lookup scope with
  | some foundScopeMap =>
    match foundScopeMap.lookup name with
    | some stored => stored
    | none => none
  | none => none

/-- `findVariableInScope` from `src/variableHelpers.ts`. The chain walk
overwrites a fast-walk result only when it finds a binding; a stored
`undefined` (or no hit at all) falls through to the named scope map. -/
def findVariableInScope (st : AllState) (meta : EventsMeta) (fuel : Nat)
    (name : String) (scope : String) (startIsFast : Bool) : Option JsValue :=
  let fastFound : Option (Option JsValue) :=
    if scope ≠ "global" ∧ startIsFast then
      fastChainVariableWalk meta.fastChain name fuel (some scope)
    else none
  let chainFound : Option (Option JsValue) :=
    if scope ≠ "global" then
      let rootNonFastChainId :=
        if startIsFast then meta.fastChain.nowRootFastChainParentId else none
      chainVariableWalk st name fuel (some (rootNonFastChainId.getD scope))
    else none
  let foundVariable : Option JsValue :=
    match chainFound, fastFound with
    | some stored, _ => stored
    | none, some stored => stored
    | none, none => none
  match foundVariable with
  | some v => some v
  | none => scopeMapVariableLookup meta scope name

/-- `getVariable` from `src/variableHelpers.ts`. -/
def getVariable (st : AllState) (meta : EventsMeta) (fuel : Nat)
    (name : String) (scope : String) (isFast : Bool) : Option JsValue :=
  findVariableInScope st meta fuel name scope isFast

/-- A partial live-event state produced by `_getStatesToRunEventsInMode`
(absent keys are `none`). -/
structure LiveEventModeDelta where
  nowRunMode : Option RunMode := none
  runModeOptionsWhenReady : Option RunModeOptions := none
  runBy : Option String := none
deriving DecidableEq, Repr

/-- A partial chain state as typed in `_getStatesToRunEventsInMode`. -/
structure ChainModeDelta where
  liveEventIds : Option (List String) := none
  canAutoActivate : Option Bool := none
deriving DecidableEq, Repr

/-- The `{ liveEvents, chains }` pair of partial-state maps returned by
`_getStatesToRunEventsInMode`; the early `return {}` paths are the empty
result. -/
structure RunModeStatesResult where
  liveEvents : List (String × LiveEventModeDelta) := []
  chains : List (String × ChainModeDelta) := []
deriving DecidableEq, Repr

/-- `getChainIdFromLiveEventId` from `src/internal.ts`: the first chain whose
`liveEventIds` contains the live id. -/
def getChainIdFromLiveEventId (state : AllState) (liveId : String) : Option String :=
  (state.chains.find? fun p => p.2.liveEventIds.contains liveId).map (·.1)

/-- JS object assignment `map[k] = v`: overwrite in place when the key exists,
otherwise append. -/
def setAssoc {α : Type} (l : List (String × α)) (k : String) (v : α) :
    List (String × α) :=
  if (l.lookup k).isSome then updateAssoc l k v else l ++ [(k, v)]

/-- The grouping prologue of `_getStatesToRunEventsInMode`: build
`liveIdsByChain` and `allFoundLiveIds`; `none` is the early `return {}`
(a chain-only call on a missing chain, or a live id whose chain is missing). -/
def groupLiveIdsByChain (state : AllState) (chainId? : Option String)
    (targetLiveIds? : Option (List String)) :
    Option (List (String × List String) × List String) :=
  match chainId?, targetLiveIds? with
  | some chainId, some targetLiveIds => some ([(chainId, targetLiveIds)], targetLiveIds)
  | some chainId, none =>
    match getChainState state chainId with
    | none => none
    | some chainState => some ([(chainId, chainState.liveEventIds)], chainState.liveEventIds)
  | none, some targetLiveIds =>
    let grouped := targetLiveIds.foldl
      (fun acc? liveId =>
        match acc? with
        | none => none
        | some acc =>
          match getChainIdFromLiveEventId state liveId with
          | none => none
          | some chainId =>
            match acc.lookup chainId with
            | some ids => some (setAssoc acc chainId (ids ++ [liveId]))
            | none => some (acc ++ [(chainId, [liveId])]))
      (some [])
    grouped.map fun g => (g, targetLiveIds)
  | none, none => some ([], [])

/-- `_getStatesToRunEventsInMode` from `src/internal.ts`. For every targeted
live event, the new partial state carries the run mode (parked in
`runModeOptionsWhenReady` for `"skip"`, written to `nowRunMode` otherwise,
with any `runBy` from the run options). The per-chain loop computes a
spliced `newChainLiveEventIds` (dropping cancelled ids) and a
`newCanAutoActivate`, but the line writing them into `newPartialChainsState`
is commented out in the source, so the returned `chains` map is always empty. -/
def getStatesToRunEventsInMode (state : AllState) (runMode : RunMode)
    (chainId? : Option String) (targetLiveIds? : Option (List String))
    (runOptionsRunBy : Option String) : RunModeStatesResult :=
  match groupLiveIdsByChain state chainId? targetLiveIds? with
  | none => {}
  | some (liveIdsByChain0, allFoundLiveIds) =>
    let foundSubChains := allFoundLiveIds.filter fun liveId =>
      (getChainState state liveId).isSome
    let liveIdsByChain := foundSubChains.foldl
      (fun acc subChainId =>
        match getChainState state subChainId with
        | some subChainState => setAssoc acc subChainId subChainState.liveEventIds
        | none => acc)
      liveIdsByChain0
    let newPartialLiveEventsState := liveIdsByChain.foldl
      (fun acc p =>
        let chainId := p.1
        let targetChainLiveIdsUnordered := p.2
        match getChainState state chainId with
        | none => acc
        | some chainState =>
          let targetChainLiveIds := chainState.liveEventIds.filter fun liveId =>
            targetChainLiveIdsUnordered.contains liveId
          targetChainLiveIds.foldl
            (fun acc2 liveEventId =>
              if runMode = RunMode.skip then
                setAssoc acc2 liveEventId
                  { runModeOptionsWhenReady := some ⟨runMode, runOptionsRunBy⟩ }
              else
                setAssoc acc2 liveEventId
                  { nowRunMode := some runMode, runBy := runOptionsRunBy })
            acc)
      []
    { liveEvents := newPartialLiveEventsState, chains := [] }

/-- Merge a live-event partial state into a record (a repond partial
`setState`). -/
def applyLiveEventModeDelta (ev : LiveEvent) (p : LiveEventModeDelta) : LiveEvent :=
  let ev1 := match p.nowRunMode with
    | some m => { ev with nowRunMode := some m }
    | none => ev
  let ev2 := match p.runModeOptionsWhenReady with
    | some o => { ev1 with runModeOptionsWhenReady := some o }
    | none => ev1
  match p.runBy with
  | some r => { ev2 with runBy := some r }
  | none => ev2

/-- Merge a chain partial state into a record. -/
def applyChainModeDelta (c : Chain) (p : ChainModeDelta) : Chain :=
  let c1 := match p.liveEventIds with
    | some ids => { c with liveEventIds := ids }
    | none => c
  match p.canAutoActivate with
  | some b => { c1 with canAutoActivate := b }
  | none => c1

/-- Apply a `RunModeStatesResult` to the state, as the helpers in
`src/helpers.ts` do via `setState`; partials for missing records are
skipped. -/
def applyRunModeStatesResult (st : AllState) (res : RunModeStatesResult) : AllState :=
  let liveEvents := res.liveEvents.foldl
    (fun le kp =>
      match le.lookup kp.1 with
      | some ev => updateAssoc le kp.1 (applyLiveEventModeDelta ev kp.2)
      | none => le)
    st.liveEvents
  let chains := res.chains.foldl
    (fun cs kp =>
      match cs.lookup kp.1 with
      | some c => updateAssoc cs kp.1 (applyChainModeDelta c kp.2)
      | none => cs)
    st.chains
  { chains := chains, liveEvents := liveEvents }

/-- `_makeLiveIdFromEventBlock` from `src/internal.ts`: the options' `liveId`
when set, otherwise a generated id (the source builds it from the group, name,
chain id and a random number; the generator is a parameter here). -/
def _makeLiveIdFromEventBlock (freshId : EventBlock → String) (event : EventBlock) : String :=
  event.options.liveId.getD (freshId event)

/-- `_makeLiveEventStateFromEvent` from `src/internal.ts`: the initial live
event record (`nowRunMode = "add"`, `goalEndTime = 0`, null timestamps). The
source also reads the elapsed time here but never uses it. -/
def _makeLiveEventStateFromEvent (defaultElapsedTimePath : Option TimePath)
    (nowTime : Int) (event : EventBlock) : LiveEvent :=
  let o := event.options
  { id := o.liveId.getD ""
    chainId := o.chainId.getD ""
    parentChainId := o.parentChainId
    event := event
    evaluatedParams := none
    isParallel := o.isParallel.getD false
    duration := o.duration
    addedBy := o.addedBy
    runBy := none
    nowRunMode := some .add
    runModeOptionsWhenReady := none
    runModeBeforePause := none
    runModeBeforeSuspend := none
    addTime := some nowTime
    readyTime := none
    startTime := none
    goalEndTime := some (.num 0)
    pauseTime := none
    suspendTime := none
    unpauseTime := none
    unsuspendTime := none
    elapsedTimePath := o.timePath.orElse fun _ => defaultElapsedTimePath }

/-- The per-event option merge at the top of `addTheLiveEvents`
(`_addEvents` in `src/internal.ts`): list options under event options, with
`addedBy`, `isParallel`, `timePath` and `duration` falling back through the
event type definition, the computed chain id forced, and the list `liveId`
dropped. -/
def mergeEventOptions (eventReg : EventRegistry) (listOptions : EventBlockOptions)
    (chainId : String) (event : EventBlock) : EventBlock :=
  let eventType := eventReg event.group event.name
  let eo := event.options
  let lo := listOptions
  { event with options :=
    { chainId := some chainId
      liveId := eo.liveId
      addedBy := eo.addedBy.orElse fun _ => lo.addedBy
      isParallel := (eo.isParallel.orElse fun _ => lo.isParallel).orElse fun _ =>
        eventType.bind (·.isParallel)
      timePath := (eo.timePath.orElse fun _ => lo.timePath).orElse fun _ =>
        eventType.bind (·.timePath)
      hasPriority := eo.hasPriority.orElse fun _ => lo.hasPriority
      duration := (eo.duration.orElse fun _ => lo.duration).orElse fun _ =>
        eventType.bind (·.duration)
      isFast := eo.isFast.orElse fun _ => lo.isFast
      parentChainId := eo.parentChainId.orElse fun _ => lo.parentChainId } }

/-- The `addTheLiveEvents` closure of `_addEvents` (`src/internal.ts`,
non-fast path): merge options, create the chain when missing, park events
whose computed live id already exists in `duplicateEventsToAdd`, add the
others as live-event records and append (or priority-insert) their ids to the
chain queue, merge the parked map into the chain, handle the sub-chain
`goalEndTime = Infinity` branch, and set every parked id's existing live
event to `"cancel"` (reads inside the set-state window see the writes, so the
cancel loop sees the merged parked map). -/
def addTheLiveEvents (eventReg : EventRegistry) (defaultElapsedTimePath : Option TimePath)
    (freshId : EventBlock → String) (nowTime : Int)
    (st0 : AllState) (eventBlocks : List EventBlock) (listOptions : EventBlockOptions)
    (chainId : String) (isForSubChain : Bool) : AllState :=
  let events := eventBlocks.map (mergeEventOptions eventReg listOptions chainId)
  let chainDoesntExist := (getChainState st0 chainId).isNone
  let existingParentLiveEventForSubChain :=
    match listOptions.liveId with
    | some liveId => getLiveEventState st0 liveId
    | none => none
  let parentLiveEventRunMode := existingParentLiveEventForSubChain.bind (·.nowRunMode)
  let parentLiveEventHasNonAddRunMode :=
    listOptions.liveId.isSome &&
      (match parentLiveEventRunMode with
        | some m => decide (m ≠ RunMode.add)
        | none => false)
  let st1 :=
    if chainDoesntExist then
      let canAutoActivate := !isForSubChain || parentLiveEventHasNonAddRunMode
      let newChainState : Chain :=
        { id := chainId, liveEventIds := [], canAutoActivate := canAutoActivate,
          duplicateEventsToAdd := [], parentChainId := listOptions.parentChainId,
          variablesByName := [] }
      { st0 with chains := st0.chains ++ [(chainId, newChainState)] }
    else st0
  let newDuplicateLiveEventsMap := events.filterMap fun event =>
    let liveId := _makeLiveIdFromEventBlock freshId event
    if (getLiveEventState st1 liveId).isSome then some (liveId, event) else none
  let eventsWithoutDuplicates := events.filter fun event =>
    let liveId := _makeLiveIdFromEventBlock freshId event
    !(getLiveEventState st1 liveId).isSome
  let added := eventsWithoutDuplicates.foldl
    (fun (acc : AllState × List String) event =>
      match listOptions.chainId.orElse (fun _ => event.options.chainId) with
      | none => acc
      | some eventChainId =>
        let eventWithNewOptions :=
          { event with options := { event.options with chainId := some eventChainId } }
        let liveId := event.options.liveId.getD (freshId eventWithNewOptions)
        let eventWithLiveId :=
          { eventWithNewOptions with options :=
            { eventWithNewOptions.options with liveId := some liveId } }
        let newRecord := _makeLiveEventStateFromEvent defaultElapsedTimePath nowTime eventWithLiveId
        ({ acc.1 with liveEvents := acc.1.liveEvents ++ [(liveId, newRecord)] },
          acc.2 ++ [liveId]))
    (st1, [])
  let st2 := added.1
  let newLiveIds := added.2
  match getChainState st2 chainId with
  | none => st2
  | some chainState =>
    let nowChainEventIds := chainState.liveEventIds
    let newChainEventIds :=
      if listOptions.hasPriority.getD false then
        getInsertEventIdsAfterActive st2 nowChainEventIds newLiveIds
      else nowChainEventIds ++ newLiveIds
    let mergedDuplicates := spreadAssoc chainState.duplicateEventsToAdd newDuplicateLiveEventsMap
    let updatedChain :=
      { chainState with
          liveEventIds := newChainEventIds
          duplicateEventsToAdd := mergedDuplicates }
    let st3 := { st2 with chains := updateAssoc st2.chains chainId updatedChain }
    let st4 :=
      if isForSubChain then
        let stA :=
          match getLiveEventState st3 chainId with
          | some parentEv =>
            let parentEv' := { parentEv with goalEndTime := some .inf }
            { st3 with liveEvents := updateAssoc st3.liveEvents chainId parentEv' }
          | none => st3
        if parentLiveEventHasNonAddRunMode &&
            decide (parentLiveEventRunMode ≠ some RunMode.start) then
          newChainEventIds.foldl
            (fun stB liveId =>
              match getLiveEventState stB liveId with
              | some ev =>
                let ev' := { ev with nowRunMode := some RunMode.add }
                { stB with liveEvents := updateAssoc stB.liveEvents liveId ev' }
              | none => stB)
            stA
        else stA
      else st3
    let liveEventsToCancel := mergedDuplicates.map (·.1)
    liveEventsToCancel.foldl
      (fun stC liveId =>
        match getLiveEventState stC liveId with
        | none => stC
        | some eventState =>
          let eventState' := { eventState with nowRunMode := some RunMode.cancel }
          { stC with liveEvents := updateAssoc stC.liveEvents liveId eventState' })
      st4

/-- `_addEvents` from `src/internal.ts` (non-fast path): compute the target
chain id (`liveId ?? chainId ?? defaultChainId ?? fresh`), and run
`addTheLiveEvents` — immediately when adding to a sub-chain whose parent live
event already exists, otherwise on the next tick; either way this is the
state once it has run. Returns the state and the chain id. -/
def _addEvents (eventReg : EventRegistry) (defaultElapsedTimePath : Option TimePath)
    (defaultChainId : Option String) (newChainId : String)
    (freshId : EventBlock → String) (nowTime : Int)
    (st : AllState) (eventBlocks : List EventBlock) (listOptions : EventBlockOptions) :
    AllState × String :=
  let liveId := listOptions.liveId
  let chainId := liveId.getD (listOptions.chainId.getD (defaultChainId.getD newChainId))
  let isForSubChain := liveId.isSome
  (addTheLiveEvents eventReg defaultElapsedTimePath freshId nowTime
      st eventBlocks listOptions chainId isForSubChain,
    chainId)

/-- Engine-level actions emitted by the add/remove effect. -/
inductive EngineAction where
  | stopElapsedTimeEffect : String → EngineAction
  | deferredAddEvents : List EventBlock → String → EngineAction

/-- The removal branch of `whenLiveEventAddedOrRemoved`
(`src/effects/liveEvents.ts`): stop the elapsed-time effect; when the removed
live event's previous chain still exists and has a parked duplicate under this
live id, re-add the parked event via `_addEvents` (which defers its work to
the next tick — an emitted action here) and clear the parked entry. -/
def whenLiveEventRemoved (prevState st : AllState) (liveId : String) :
    AllState × List EngineAction :=
  let actions := [EngineAction.stopElapsedTimeEffect liveId]
  match getLiveEventState prevState liveId with
  | none => (st, actions)
  | some prevEv =>
    let chainId := prevEv.chainId
    if chainId = "" then (st, actions)
    else
      match getChainState st chainId with
      | none => (st, actions)
      | some chainState =>
        match chainState.duplicateEventsToAdd.lookup liveId with
        | none => (st, actions)
        | some duplicateEvent =>
          let actions := actions ++ [EngineAction.deferredAddEvents [duplicateEvent] chainId]
          match getChainState st chainId with
          | none => (st, actions)
          | some latestChainState =>
            let newDuplicateEventsToAdd := eraseAssoc latestChainState.duplicateEventsToAdd liveId
            let latestChainState' :=
              { latestChainState with duplicateEventsToAdd := newDuplicateEventsToAdd }
            ({ st with chains := updateAssoc st.chains chainId latestChainState' }, actions)

/-- The activation walk exactly as the claim states it (spec §4.F): for i ≥ 1
the walk stops at the first event that is missing, non-parallel-and-in-add
(which the claim says is included in the selection before stopping), or
parallel-and-not-in-add (stop before it); all other events are selected and
the walk continues. -/
def claimActivationScan (state : AllState) : List String → List String
  | [] => []
  | liveId :: rest =>
    match getLiveEventState state liveId with
    | none => []
    | some ev =>
      let canStart := decide (ev.nowRunMode = some RunMode.add)
      if !ev.isParallel && canStart then [liveId]
      else if ev.isParallel && !canStart then []
      else liveId :: claimActivationScan state rest

/-- The claim's full activation selection: index 0 selected alone when in
`"add"` and not parallel; when in `"add"` and parallel, index 0 plus the
walk over the tail; nothing otherwise. -/
def claimActivationSelect (state : AllState) (liveEventIds : List String) : List String :=
  match liveEventIds with
  | [] => []
  | firstId :: rest =>
    match getLiveEventState state firstId with
    | none => []
    | some ev =>
      if !(decide (ev.nowRunMode = some RunMode.add)) then []
      else if !ev.isParallel then [firstId]
      else firstId :: claimActivationScan state rest

/-- The amended activation walk: identical to the claim's walk except that a
non-parallel event in `"add"` at i ≥ 1 stops the walk *without* being
selected (it only starts after its parallel predecessors have ended). -/
def amendedActivationScan (state : AllState) : List String → List String
  | [] => []
  | liveId :: rest =>
    match getLiveEventState state liveId with
    | none => []
    | some ev =>
      let canStart := decide (ev.nowRunMode = some RunMode.add)
      if !ev.isParallel && canStart then []
      else if ev.isParallel && !canStart then []
      else liveId :: amendedActivationScan state rest

/-- The amended activation selection. -/
def amendedActivationSelect (state : AllState) (liveEventIds : List String) : List String :=
  match liveEventIds with
  | [] => []
  | firstId :: rest =>
    match getLiveEventState state firstId with
    | none => []
    | some ev =>
      if !(decide (ev.nowRunMode = some RunMode.add)) then []
      else if !ev.isParallel then [firstId]
      else firstId :: amendedActivationScan state rest

/-- A demo live event in `"add"` mode for concrete scheduler inputs. -/
def c1DemoEvent (id chainId : String) (par : Bool) : LiveEvent :=
  { id := id, chainId := chainId, event := { group := "test", name := id },
    isParallel := par, nowRunMode := some .add, addTime := some 1 }

/-- A chain holding a parallel `"add"` event followed by a non-parallel
`"add"` event. -/
def c1DemoState : AllState :=
  { chains := [("chain1", { id := "chain1", liveEventIds := ["evA", "evB"] })],
    liveEvents := [("evA", c1DemoEvent "evA" "chain1" true),
                   ("evB", c1DemoEvent "evB" "chain1" false)] }

/-- A started, running demo live event with `goalEndTime = 10`. -/
def c2DemoEvent : LiveEvent :=
  { id := "evC", chainId := "chain1", event := { group := "test", name := "evC" },
    nowRunMode := some .start, addTime := some 1, startTime := some 2,
    goalEndTime := some (.num 10) }

/-- A demo block with a 2-second duration option, and one with no duration. -/
def c3DemoBlockWithDuration : EventBlock :=
  { group := "test", name := "wait",
    options := { chainId := some "chain1", liveId := some "evD",
                 duration := some (.num 2) } }

def c3DemoBlockNoDuration : EventBlock :=
  { group := "test", name := "go",
    options := { chainId := some "chain1", liveId := some "evE" } }

/-- A demo state and meta for the variable fall-through: the chain stores
`hp` explicitly as `undefined`; the global scope map stores `hp = 100`. -/
def c9DemoState : AllState :=
  { chains := [("chain1", { id := "chain1", variablesByName := [("hp", none)] })] }

def c9DemoMeta : EventsMeta :=
  { variablesByScopesMap := [("chain1", [("hp", some (JsValue.int 100))])] }

/-- A finalized demo live event owned by `chainX`. -/
def c10DemoEvent : LiveEvent :=
  { id := "evP", chainId := "chainX", event := { group := "t", name := "p" },
    nowRunMode := some .end_, addTime := some 1, startTime := some 2 }

def c10DemoState : AllState :=
  { chains := [("chainX", { id := "chainX", liveEventIds := ["evP", "evQ"] }),
               ("chainY", { id := "chainY", liveEventIds := ["evR"] })],
    liveEvents := [("evP", c10DemoEvent)] }

/-- A started, active demo live event targeted for cancellation. -/
def c7DemoEvent : LiveEvent :=
  { id := "evL", chainId := "chainC", event := { group := "t", name := "l" },
    nowRunMode := some .start, addTime := some 1, startTime := some 2 }

def c7DemoState : AllState :=
  { chains := [("chainC", { id := "chainC", liveEventIds := ["evL"] })],
    liveEvents := [("evL", c7DemoEvent)] }

mutual

/-- Modelled from the claim's words (C5 / spec §4.C): an evaluator that
replaces *every* `ValueBlock` at *any* nesting depth — in particular it
recurses into plain objects — for comparison with the source's
`evaluateParams`. -/
def claimDeepEvaluateValue (reg : ValueRegistry) (fuel : Nat) (v : JsValue) :
    Option JsValue :=
  match v with
  | .obj fields => (claimDeepEvaluateParams reg fuel fields).map .obj
  | .vblock group name params =>
    match reg group name with
    | none => none
    | some valueDefinition =>
      match fuel with
      | 0 => none
      | fuel' + 1 =>
        (claimDeepEvaluateParams reg fuel' (mergeParams valueDefinition.params params)).map
          valueDefinition.run
  | other => some other
termination_by (fuel, sizeOf v)

/-- Modelled from the claim's words (C5): the params map with every
`ValueBlock` at any depth replaced. -/
def claimDeepEvaluateParams (reg : ValueRegistry) (fuel : Nat) (params : ParamMap) :
    Option ParamMap :=
  match params with
  | [] => some []
  | (key, value) :: rest =>
    match claimDeepEvaluateValue reg fuel value, claimDeepEvaluateParams reg fuel rest with
    | some evaluatedValue, some evaluatedRest => some ((key, evaluatedValue) :: evaluatedRest)
    | _, _ => none
termination_by (fuel, sizeOf params)

end

/-- A registry with one value type whose `run` returns the number 42. -/
def c5DemoRegistry : ValueRegistry := fun group name =>
  if group = "basic" ∧ name = "answer" then
    some { params := [], run := fun _ => JsValue.int 42 }
  else none

/-- A params map holding a `ValueBlock` nested inside a plain object. -/
def c5DemoParams : ParamMap :=
  [("a", JsValue.obj [("b", JsValue.vblock "basic" "answer" [])])]

/-- The list options used by the C8 duplicate scenario: a plain add into an
existing chain. -/
def c8ListOptions (chainId : String) : EventBlockOptions := { chainId := some chainId }

/-- An existing running live event occupying the id `dupL`. -/
def c8DemoExisting : LiveEvent :=
  { id := "dupL", chainId := "chainD", event := { group := "t", name := "dup" },
    nowRunMode := some .start, addTime := some 1, startTime := some 2 }

/-- A new block asking for the already-taken live id `dupL`. -/
def c8DemoBlock : EventBlock :=
  { group := "t", name := "dup", options := { liveId := some "dupL" } }

def c8DemoState : AllState :=
  { chains := [("chainD", { id := "chainD", liveEventIds := ["dupL"] })],
    liveEvents := [("dupL", c8DemoExisting)] }

/-- The chain after the duplicate was parked. -/
def c8DemoParkedChain : Chain :=
  { id := "chainD", liveEventIds := ["dupL"],
    duplicateEventsToAdd := [("dupL", c8DemoBlock)] }

def c8DemoParkedState : AllState :=
  { chains := [("chainD", c8DemoParkedChain)], liveEvents := [] }

theorem findLoop_take_eq (state : AllState) :
    ∀ rest : List String,
      (match findNonActiveLoop state rest with
        | some i => rest.take i
        | none => rest) = amendedActivationScan state rest
  | [] => by simp [findNonActiveLoop, amendedActivationScan]
  | liveId :: rest => by
    have ih := findLoop_take_eq state rest
    by_cases h : findNonActiveLoopCheck state liveId = true
    · rw [amendedActivationScan, findNonActiveLoop]
      rw [if_pos h]
      revert h
      unfold findNonActiveLoopCheck
      cases hev : getLiveEventState state liveId with
      | none => simp
      | some ev =>
        cases hpar : ev.isParallel <;>
          cases hcs : decide (ev.nowRunMode = some RunMode.add) <;>
            simp [liveEventCanStart, hev, hpar, hcs]
    · rw [amendedActivationScan, findNonActiveLoop]
      rw [if_neg h]
      revert h
      unfold findNonActiveLoopCheck
      cases hev : getLiveEventState state liveId with
      | none => simp
      | some ev =>
        cases hpar : ev.isParallel <;>
          cases hcs : decide (ev.nowRunMode = some RunMode.add) <;>
            simp [liveEventCanStart, hev, hpar, hcs] <;>
              cases hloop : findNonActiveLoop state rest <;>
                simp [hloop] at ih ⊢ <;> exact ih

/-- Claim C1, counterexample: with a parallel event in `"add"` at index 0
followed by a non-parallel event in `"add"` at index 1, the code selects only
index 0, while the claim's walk (case (b): include the non-parallel `"add"`
event at i before stopping) selects both. -/
theorem c1_activation_walk_counterexample :
    getActiveEventIds c1DemoState ["evA", "evB"] = ["evA"] ∧
    claimActivationSelect c1DemoState ["evA", "evB"] = ["evA", "evB"] ∧
    getActiveEventIds c1DemoState ["evA", "evB"] ≠
      claimActivationSelect c1DemoState ["evA", "evB"] := by
  refine ⟨by decide, by decide, by decide⟩

/-- Claim C1, amended: the activation selection follows the stated walk with
case (b) weakened — for i ≥ 1 a non-parallel event in `"add"` stops the walk
*without* being included (it starts only after its parallel predecessors
end); the rest of the walk is as claimed: index 0 alone when non-parallel and
in `"add"`, continue past index 0 when parallel and in `"add"`, stop at a
missing event or before a parallel event not in `"add"`, and select all when
every event is parallel and in `"add"`. -/
theorem c1_activation_walk_amended (state : AllState) (liveEventIds : List String) :
    getActiveEventIds state liveEventIds = amendedActivationSelect state liveEventIds := by
  cases liveEventIds with
  | nil => rfl
  | cons firstId rest =>
    unfold getActiveEventIds findFirstNonActiveEventIndex amendedActivationSelect
    cases hev : getLiveEventState state firstId with
    | none => simp [liveEventCanStart, hev]
    | some ev =>
      cases hpar : ev.isParallel <;> cases hcs : decide (ev.nowRunMode = some RunMode.add)
      · simp [liveEventCanStart, hev, hpar, hcs]
      · simp [liveEventCanStart, hev, hpar, hcs]
      · simp [liveEventCanStart, hev, hpar, hcs]
      · have hkey := findLoop_take_eq state rest
        cases hloop : findNonActiveLoop state rest with
        | some i =>
          rw [hloop] at hkey
          simp at hkey
          simp [liveEventCanStart, hev, hpar, hcs, hloop, List.take_succ_cons, hkey]
        | none =>
          rw [hloop] at hkey
          simp at hkey
          simp [liveEventCanStart, hev, hpar, hcs, hloop, List.take_succ_cons,
            List.take_length]
          exact hkey

/-- Claim C2: pause is transparent to event duration. For a started live
event with finite `goalEndTime` g that is paused (via the lifecycle effect)
at `pauseNow` and unpaused with no external interference: the pause stamps
`pauseTime`, the unpause sets `goalEndTime` to the elapsed time plus the
remaining time `g - pauseNow` computed from the pause, and subtracting the
unpause-time elapsed time from the new goal gives back exactly the remaining
time at pause. -/
theorem c2_pause_transparent
    (ev : LiveEvent) (g s a pauseNow unpauseNow elapsed1 elapsed2 : Int)
    (td : Option JsNum)
    (hgoal : ev.goalEndTime = some (JsNum.num g))
    (hstart : ev.startTime = some s)
    (hadd : ev.addTime = some a) (ha : a ≠ 0) :
    (whenNowRunModeChanges { ev with nowRunMode := some RunMode.pause }
        (some RunMode.pause) (some RunMode.start) pauseNow elapsed1 td).1.pauseTime
      = some pauseNow ∧
    (whenNowRunModeChanges
        { (whenNowRunModeChanges { ev with nowRunMode := some RunMode.pause }
            (some RunMode.pause) (some RunMode.start) pauseNow elapsed1 td).1 with
          nowRunMode := some RunMode.unpause }
        (some RunMode.unpause) (some RunMode.pause) unpauseNow elapsed2 td).1.goalEndTime
      = some (JsNum.num (elapsed2 + (g - pauseNow))) ∧
    (JsNum.num (elapsed2 + (g - pauseNow))).subNum elapsed2 = (JsNum.num g).subNum pauseNow := by
  refine ⟨?_, ?_, ?_⟩
  · simp [whenNowRunModeChanges, hadd, ha]
  · simp [whenNowRunModeChanges, applyUnpauseOrUnsuspend, applyStartTransition,
      hgoal, hstart, hadd, ha, JsNum.subNum, JsNum.numAdd]
  · simp [JsNum.subNum]

theorem c2_pause_transparent_witness :
    (whenNowRunModeChanges { c2DemoEvent with nowRunMode := some RunMode.pause }
        (some RunMode.pause) (some RunMode.start) 4 3 none).1.pauseTime = some 4 ∧
    (whenNowRunModeChanges
        { (whenNowRunModeChanges { c2DemoEvent with nowRunMode := some RunMode.pause }
            (some RunMode.pause) (some RunMode.start) 4 3 none).1 with
          nowRunMode := some RunMode.unpause }
        (some RunMode.unpause) (some RunMode.pause) 7 6 none).1.goalEndTime
      = some (JsNum.num (6 + (10 - 4))) ∧
    (JsNum.num (6 + (10 - 4))).subNum 6 = (JsNum.num 10).subNum 4 :=
  c2_pause_transparent c2DemoEvent 10 2 1 4 7 3 6 none rfl rfl rfl (by decide)

/-- Claim C3: on a live event's first start (the record fresh from
`_makeLiveEventStateFromEvent` has `startTime = null` and `goalEndTime = 0`),
the lifecycle start branch sets `goalEndTime` to `elapsedTime + duration * 1000`
whenever a finite duration is set (the event's option falling back to the
event type's default), and leaves `goalEndTime` at `0` when no duration is
set. -/
theorem c3_first_start_goal_end_time (event : EventBlock) (defPath : Option TimePath)
    (addNow nowTime elapsedTime : Int) (eventTypeDuration : Option JsNum)
    (haddNZ : addNow ≠ 0) :
    (∀ d : Int,
      event.options.duration.orElse (fun _ => eventTypeDuration) = some (JsNum.num d) →
      (whenNowRunModeChanges
          { _makeLiveEventStateFromEvent defPath addNow event with
            nowRunMode := some RunMode.start }
          (some RunMode.start) (some RunMode.add) nowTime elapsedTime eventTypeDuration).1.goalEndTime
        = some (JsNum.num (elapsedTime + d * 1000))) ∧
    (event.options.duration.orElse (fun _ => eventTypeDuration) = none →
      (whenNowRunModeChanges
          { _makeLiveEventStateFromEvent defPath addNow event with
            nowRunMode := some RunMode.start }
          (some RunMode.start) (some RunMode.add) nowTime elapsedTime eventTypeDuration).1.goalEndTime
        = some (JsNum.num 0)) := by
  constructor
  · intro d hd
    simp [whenNowRunModeChanges, applyStartTransition, _makeLiveEventStateFromEvent,
      haddNZ, hd, JsNum.numAdd, JsNum.mulThousand]
  · intro hd
    simp [whenNowRunModeChanges, applyStartTransition, _makeLiveEventStateFromEvent,
      haddNZ, hd]

theorem c3_first_start_goal_end_time_witness :
    (whenNowRunModeChanges
        { _makeLiveEventStateFromEvent none 1 c3DemoBlockWithDuration with
          nowRunMode := some RunMode.start }
        (some RunMode.start) (some RunMode.add) 5 100 none).1.goalEndTime
      = some (JsNum.num (100 + 2 * 1000)) ∧
    (whenNowRunModeChanges
        { _makeLiveEventStateFromEvent none 1 c3DemoBlockNoDuration with
          nowRunMode := some RunMode.start }
        (some RunMode.start) (some RunMode.add) 5 100 none).1.goalEndTime
      = some (JsNum.num 0) :=
  ⟨(c3_first_start_goal_end_time c3DemoBlockWithDuration none 1 5 100 none
      (by decide)).1 2 rfl,
    (c3_first_start_goal_end_time c3DemoBlockNoDuration none 1 5 100 none
      (by decide)).2 rfl⟩

/-- Claim C4: the time watcher never ends a live event prematurely. On an
observed tick it transitions the event to `"end"` (and stops its
subscription) exactly when the event's `nowRunMode` is none of
end/pause/suspend/cancel/skip/add, its `startTime` is set, its `goalEndTime`
is a number g, and the elapsed time has reached g; a missing live event or
an undefined elapsed time is ignored. -/
theorem c4_time_watcher (ev : LiveEvent) (t : Int) :
    (whenElapsedTimeChangesTick (some ev) (some t) = WatcherResult.endAndStop ↔
      ((ev.nowRunMode ≠ some RunMode.end_ ∧ ev.nowRunMode ≠ some RunMode.pause ∧
        ev.nowRunMode ≠ some RunMode.suspend ∧ ev.nowRunMode ≠ some RunMode.cancel ∧
        ev.nowRunMode ≠ some RunMode.skip ∧ ev.nowRunMode ≠ some RunMode.add) ∧
        ev.startTime ≠ none ∧
        ∃ g, ev.goalEndTime = some g ∧ JsNum.intGe t g = true)) ∧
    whenElapsedTimeChangesTick none (some t) = WatcherResult.ignore ∧
    whenElapsedTimeChangesTick (some ev) none = WatcherResult.ignore := by
  refine ⟨?_, rfl, rfl⟩
  cases hm : ev.nowRunMode with
  | none =>
    cases hs : ev.startTime <;> rcases hg : ev.goalEndTime with _ | g <;>
      simp [whenElapsedTimeChangesTick, hm, hs, hg]
  | some m =>
    cases m <;> cases hs : ev.startTime <;> rcases hg : ev.goalEndTime with _ | g <;>
      simp [whenElapsedTimeChangesTick, hm, hs, hg]

/-- Claim C6: whenever a chain's `liveEventIds` becomes empty, the chain
effect removes the chain record, and a registered `getEventValue` resolver
for that chain id is invoked with `undefined`. -/
theorem c6_empty_chain_removed (c : Chain) (resolverRegistered : Bool)
    (hempty : c.liveEventIds = []) :
    whenLiveEventIdsChangeDrain (some c) resolverRegistered =
      ⟨true, if resolverRegistered then some none else none⟩ := by
  simp [whenLiveEventIdsChangeDrain, hempty]

theorem c6_empty_chain_removed_witness :
    whenLiveEventIdsChangeDrain (some { id := "chain1", liveEventIds := [] }) true =
      ⟨true, if true then some none else none⟩ :=
  c6_empty_chain_removed { id := "chain1", liveEventIds := [] } true rfl

/-- Claim C9: in `getVariable`'s chain walk, a variable whose stored value is
`undefined` is treated as absent — when the scope chain has the name as a key
in `variablesByName` with stored value `undefined`, the result equals the
named-scope-map lookup `variablesByScopesMap[scope][name]`, exactly as for a
name never set on the chain. -/
theorem c9_undefined_chain_variable_falls_through
    (st : AllState) (meta : EventsMeta) (fuel : Nat) (name scope : String) (c : Chain)
    (hscope : scope ≠ "global")
    (hc : getChainState st scope = some c)
    (hvar : c.variablesByName.lookup name = some none) :
    getVariable st meta (fuel + 1) name scope false =
      scopeMapVariableLookup meta scope name := by
  simp [getVariable, findVariableInScope, hscope, chainVariableWalk, hc, hvar]

theorem c9_undefined_chain_variable_falls_through_witness :
    getVariable c9DemoState c9DemoMeta 3 "hp" "chain1" false =
      scopeMapVariableLookup c9DemoMeta "chain1" "hp" :=
  c9_undefined_chain_variable_falls_through c9DemoState c9DemoMeta 2 "hp" "chain1"
    { id := "chain1", variablesByName := [("hp", none)] } (by decide) rfl rfl

theorem lookup_cons_pair {α : Type} (k a : String) (b : α) (rest : List (String × α)) :
    List.lookup k ((a, b) :: rest) = if k = a then some b else List.lookup k rest := by
  by_cases h : k = a
  · subst h
    simp [List.lookup]
  · have hbk : (k == a) = false := beq_eq_false_iff_ne.mpr h
    simp [List.lookup, hbk, h]

theorem updateAssoc_cons_pair {α : Type} (a k : String) (b v : α) (rest : List (String × α)) :
    updateAssoc ((a, b) :: rest) k v =
      (if a = k then (a, v) else (a, b)) :: updateAssoc rest k v := rfl

theorem lookup_updateAssoc_eq {α : Type} : ∀ (l : List (String × α)) (k : String) (v : α),
    (l.lookup k).isSome → (updateAssoc l k v).lookup k = some v
  | [], k, v, h => by simp [List.lookup] at h
  | (a, b) :: rest, k, v, h => by
    rw [updateAssoc_cons_pair]
    by_cases hk : a = k
    · subst hk
      rw [if_pos rfl, lookup_cons_pair, if_pos rfl]
    · have hrest : (List.lookup k rest).isSome := by
        rw [lookup_cons_pair] at h
        rwa [if_neg (fun hkk => hk hkk.symm)] at h
      rw [if_neg hk, lookup_cons_pair, if_neg (fun hkk => hk hkk.symm)]
      exact lookup_updateAssoc_eq rest k v hrest

theorem lookup_updateAssoc_ne {α : Type} : ∀ (l : List (String × α)) (k k' : String) (v : α),
    k' ≠ k → (updateAssoc l k v).lookup k' = l.lookup k'
  | [], _, _, _, _ => by simp [updateAssoc]
  | (a, b) :: rest, k, k', v, h => by
    rw [updateAssoc_cons_pair]
    by_cases hk : a = k
    · subst hk
      rw [if_pos rfl, lookup_cons_pair, if_neg h, lookup_cons_pair, if_neg h]
      exact lookup_updateAssoc_ne rest a k' v h
    · rw [if_neg hk, lookup_cons_pair, lookup_cons_pair]
      by_cases hbk : k' = a
      · rw [if_pos hbk, if_pos hbk]
      · rw [if_neg hbk, if_neg hbk]
        exact lookup_updateAssoc_ne rest k k' v h

/-- Claim C10: `finalizeEvent` changes only the owning chain's
`liveEventIds`, filtering out the one live id (an order-preserving filter);
every other chain, every other field, and the whole live-event store are
unchanged now, and the live event record's removal is only scheduled for the
next tick. -/
theorem c10_finalize_event_frame (st : AllState) (liveId : String) (ev : LiveEvent) (c : Chain)
    (hev : getLiveEventState st liveId = some ev)
    (hcid : ev.chainId ≠ "")
    (hc : getChainState st ev.chainId = some c) :
    (finalizeEvent st liveId).1.chains.lookup ev.chainId =
      some { c with liveEventIds := c.liveEventIds.filter (fun id => id ≠ liveId) } ∧
    (∀ cid, cid ≠ ev.chainId →
      (finalizeEvent st liveId).1.chains.lookup cid = st.chains.lookup cid) ∧
    (finalizeEvent st liveId).1.liveEvents = st.liveEvents ∧
    (finalizeEvent st liveId).2 = [TickAction.removeLiveEvent liveId] := by
  have hsome : (st.chains.lookup ev.chainId).isSome := by
    rw [show st.chains.lookup ev.chainId = some c from hc]
    rfl
  refine ⟨?_, ?_, ?_, ?_⟩
  · simp only [finalizeEvent, hev, hc, if_neg hcid]
    exact lookup_updateAssoc_eq st.chains ev.chainId _ hsome
  · intro cid hne
    simp only [finalizeEvent, hev, hc, if_neg hcid]
    exact lookup_updateAssoc_ne st.chains ev.chainId cid _ hne
  · simp only [finalizeEvent, hev, hc, if_neg hcid]
  · simp only [finalizeEvent, hev, hc, if_neg hcid]

theorem c10_finalize_event_frame_witness :
    (finalizeEvent c10DemoState "evP").1.chains.lookup "chainX" =
      some { id := "chainX",
             liveEventIds := ["evP", "evQ"].filter (fun id => id ≠ "evP") } ∧
    (∀ cid, cid ≠ "chainX" →
      (finalizeEvent c10DemoState "evP").1.chains.lookup cid =
        c10DemoState.chains.lookup cid) ∧
    (finalizeEvent c10DemoState "evP").1.liveEvents = c10DemoState.liveEvents ∧
    (finalizeEvent c10DemoState "evP").2 = [TickAction.removeLiveEvent "evP"] :=
  c10_finalize_event_frame c10DemoState "evP" c10DemoEvent
    { id := "chainX", liveEventIds := ["evP", "evQ"] } rfl (by decide) rfl

/-- Claim C7, counterexample: cancelling an active live event through the
run-mode helper does *not* remove it from its chain's `liveEventIds`: the
helper's returned `chains` map is empty, applying the result leaves the chain
queue still holding the event, and only the event's `nowRunMode` is set to
`"cancel"`. -/
theorem c7_cancel_immediate_removal_counterexample :
    (getStatesToRunEventsInMode c7DemoState RunMode.cancel none (some ["evL"]) none).chains
      = [] ∧
    (applyRunModeStatesResult c7DemoState
        (getStatesToRunEventsInMode c7DemoState RunMode.cancel none
          (some ["evL"]) none)).chains.lookup "chainC"
      = some { id := "chainC", liveEventIds := ["evL"] } ∧
    (getStatesToRunEventsInMode c7DemoState RunMode.cancel none
        (some ["evL"]) none).liveEvents.lookup "evL"
      = some { nowRunMode := some RunMode.cancel } := by
  refine ⟨rfl, rfl, rfl⟩

/-- Claim C7, amended: giving a live event run mode `"cancel"` through the
run-mode helpers does not touch the chain queue (the helper's computed
removal is never committed — the write is commented out in the source); it
only marks the event's `nowRunMode` as `"cancel"` (with any `runBy`). The
queue removal happens in the lifecycle effect: the handler is dispatched
exactly once with run mode `"cancel"`, then `finalizeEvent` filters the id
out of the owning chain's queue and schedules the record's removal for the
next tick. -/
theorem c7_cancel_lifecycle_amended
    (st : AllState) (liveId : String) (ev : LiveEvent) (cWalk cOwn : Chain)
    (cid : String) (rb : Option String) (a : Int)
    (prevMode : Option RunMode) (nowTime elapsed : Int) (td : Option JsNum)
    (hfound : getChainIdFromLiveEventId st liveId = some cid)
    (hcw : getChainState st cid = some cWalk)
    (hnotsub : getChainState st liveId = none)
    (hfilter : cWalk.liveEventIds.filter (fun l => ([liveId].contains l)) = [liveId])
    (hev : getLiveEventState st liveId = some ev)
    (hadd : ev.addTime = some a) (ha : a ≠ 0)
    (hcid : ev.chainId ≠ "")
    (hown : getChainState st ev.chainId = some cOwn) :
    (getStatesToRunEventsInMode st RunMode.cancel none (some [liveId]) rb).chains = [] ∧
    (applyRunModeStatesResult st
        (getStatesToRunEventsInMode st RunMode.cancel none (some [liveId]) rb)).chains
      = st.chains ∧
    (getStatesToRunEventsInMode st RunMode.cancel none (some [liveId]) rb).liveEvents.lookup liveId
      = some { nowRunMode := some RunMode.cancel, runModeOptionsWhenReady := none,
               runBy := rb } ∧
    whenNowRunModeChanges { ev with nowRunMode := some RunMode.cancel }
        (some RunMode.cancel) prevMode nowTime elapsed td
      = ({ ev with nowRunMode := some RunMode.cancel },
          [LifecycleAction.dispatchHandler RunMode.cancel, LifecycleAction.finalize]) ∧
    (finalizeEvent st liveId).1.chains.lookup ev.chainId
      = some { cOwn with liveEventIds := cOwn.liveEventIds.filter (fun id => id ≠ liveId) } ∧
    (finalizeEvent st liveId).2 = [TickAction.removeLiveEvent liveId] := by
  have hfilter' : cWalk.liveEventIds.filter (fun l => decide (l = liveId)) = [liveId] := by
    simpa using hfilter
  have hres : getStatesToRunEventsInMode st RunMode.cancel none (some [liveId]) rb =
      { liveEvents := [(liveId,
          { nowRunMode := some RunMode.cancel, runModeOptionsWhenReady := none,
            runBy := rb })], chains := [] } := by
    simp [getStatesToRunEventsInMode, groupLiveIdsByChain, hfound, hcw, hnotsub,
      hfilter', setAssoc, List.lookup]
  have hsome : (st.chains.lookup ev.chainId).isSome := by
    rw [show st.chains.lookup ev.chainId = some cOwn from hown]
    rfl
  refine ⟨by rw [hres], by rw [hres]; rfl, by rw [hres]; simp [List.lookup], ?_, ?_, ?_⟩
  · simp [whenNowRunModeChanges, hadd, ha]
  · simp only [finalizeEvent, hev, hown, if_neg hcid]
    exact lookup_updateAssoc_eq st.chains ev.chainId _ hsome
  · simp only [finalizeEvent, hev, hown, if_neg hcid]

theorem c7_cancel_lifecycle_amended_witness :
    (getStatesToRunEventsInMode c7DemoState RunMode.cancel none (some ["evL"]) none).chains
      = [] ∧
    (applyRunModeStatesResult c7DemoState
        (getStatesToRunEventsInMode c7DemoState RunMode.cancel none
          (some ["evL"]) none)).chains = c7DemoState.chains ∧
    (getStatesToRunEventsInMode c7DemoState RunMode.cancel none
        (some ["evL"]) none).liveEvents.lookup "evL"
      = some { nowRunMode := some RunMode.cancel, runModeOptionsWhenReady := none,
               runBy := none } ∧
    whenNowRunModeChanges { c7DemoEvent with nowRunMode := some RunMode.cancel }
        (some RunMode.cancel) (some RunMode.start) 9 50 none
      = ({ c7DemoEvent with nowRunMode := some RunMode.cancel },
          [LifecycleAction.dispatchHandler RunMode.cancel, LifecycleAction.finalize]) ∧
    (finalizeEvent c7DemoState "evL").1.chains.lookup "chainC"
      = some { id := "chainC",
               liveEventIds := ["evL"].filter (fun id => id ≠ "evL") } ∧
    (finalizeEvent c7DemoState "evL").2 = [TickAction.removeLiveEvent "evL"] :=
  c7_cancel_lifecycle_amended c7DemoState "evL" c7DemoEvent
    { id := "chainC", liveEventIds := ["evL"] } { id := "chainC", liveEventIds := ["evL"] }
    "chainC" none 1 (some RunMode.start) 9 50 none
    rfl rfl rfl rfl rfl rfl (by decide) (by decide) rfl

/-- Claim C5, counterexample: `evaluateParams` passes a plain object through
unchanged even when a `ValueBlock` is nested inside it, so the output is
*not* "the same map with every ValueBlock at any nesting depth replaced by
its evaluated raw value" (that would give 42 at the nested position). -/
theorem c5_deep_replacement_counterexample :
    evaluateParams c5DemoRegistry 3 c5DemoParams = some c5DemoParams ∧
    claimDeepEvaluateParams c5DemoRegistry 3 c5DemoParams =
      some [("a", JsValue.obj [("b", JsValue.int 42)])] ∧
    c5DemoParams ≠ [("a", JsValue.obj [("b", JsValue.int 42)])] := by
  refine ⟨?_, ?_, ?_⟩
  · simp [evaluateParams, evaluateValue, c5DemoParams]
  · simp [claimDeepEvaluateParams, claimDeepEvaluateValue, c5DemoParams, c5DemoRegistry,
      mergeParams, spreadAssoc]
  · simp [c5DemoParams]

theorem evaluateValue_eq_of_not_vblock (reg : ValueRegistry) (fuel : Nat)
    (v r : JsValue) (h : evaluateValue reg fuel v = some r)
    (hnb : ∀ group name ps, v ≠ JsValue.vblock group name ps) : r = v := by
  cases v with
  | vblock group name ps => exact absurd rfl (hnb group name ps)
  | str s => simp [evaluateValue] at h; exact h.symm
  | int n => simp [evaluateValue] at h; exact h.symm
  | boolean b => simp [evaluateValue] at h; exact h.symm
  | null => simp [evaluateValue] at h; exact h.symm
  | obj fields => simp [evaluateValue] at h; exact h.symm

theorem evaluateValue_vblock_spec (reg : ValueRegistry) (fuel : Nat)
    (group name : String) (ps : ParamMap) (r : JsValue)
    (h : evaluateValue reg fuel (JsValue.vblock group name ps) = some r) :
    ∃ d fuel2 ep, reg group name = some d ∧ fuel = fuel2 + 1 ∧
      evaluateParams reg fuel2 (mergeParams d.params ps) = some ep ∧
      r = d.run ep := by
  rw [evaluateValue, evaluateValueBlock] at h
  split at h
  · exact absurd h (by simp)
  · rename_i d hd
    split at h
    · exact absurd h (by simp)
    · rename_i fuel2
      split at h
      · exact absurd h (by simp)
      · rename_i ep hep
        exact ⟨d, fuel2, ep, hd, rfl, hep, (Option.some.inj h).symm⟩

/-- Claim C5, amended: `evaluateParams` keeps keys and order, passes every
non-`ValueBlock` value (primitive or plain object, even one with
`ValueBlock`s nested inside) through unchanged, and replaces every top-level
`ValueBlock` value by the value type's `run` applied to the recursively
evaluated merge of the type's default params under the block's params. -/
theorem c5_evaluate_params_amended (reg : ValueRegistry) :
    ∀ (fuel : Nat) (params res : ParamMap), evaluateParams reg fuel params = some res →
      res.length = params.length ∧
      ∀ i (hi : i < params.length) (hr : i < res.length),
        (res.get ⟨i, hr⟩).1 = (params.get ⟨i, hi⟩).1 ∧
        ((∀ group name ps, (params.get ⟨i, hi⟩).2 ≠ JsValue.vblock group name ps) →
          (res.get ⟨i, hr⟩).2 = (params.get ⟨i, hi⟩).2) ∧
        (∀ group name ps, (params.get ⟨i, hi⟩).2 = JsValue.vblock group name ps →
          ∃ d fuel2 ep, reg group name = some d ∧ fuel = fuel2 + 1 ∧
            evaluateParams reg fuel2 (mergeParams d.params ps) = some ep ∧
            (res.get ⟨i, hr⟩).2 = d.run ep)
  | fuel, [], res, h => by
    rw [evaluateParams] at h
    refine ⟨by rw [(Option.some.inj h).symm], ?_⟩
    intro i hi
    exact absurd hi (by simp)
  | fuel, (key, value) :: rest, res, h => by
    rw [evaluateParams] at h
    cases hval : evaluateValue reg fuel value with
    | none => rw [hval] at h; exact absurd h (by simp)
    | some ev =>
      cases hrest : evaluateParams reg fuel rest with
      | none => rw [hval, hrest] at h; exact absurd h (by simp)
      | some erest =>
        rw [hval, hrest] at h
        have hres : res = (key, ev) :: erest := (Option.some.inj h).symm
        subst hres
        have ih := c5_evaluate_params_amended reg fuel rest erest hrest
        refine ⟨by simp [ih.1], ?_⟩
        intro i hi hr
        cases i with
        | zero =>
          refine ⟨rfl, ?_, ?_⟩
          · intro hnb
            simpa using evaluateValue_eq_of_not_vblock reg fuel value ev hval
              (by simpa using hnb)
          · intro group name ps heq
            simp only [List.get] at heq ⊢
            rw [heq] at hval
            exact evaluateValue_vblock_spec reg fuel group name ps ev hval
        | succ i =>
          have hi' : i < rest.length := by simpa using hi
          have hr' : i < erest.length := by simpa using hr
          exact ih.2 i hi' hr'

theorem c5_evaluate_params_amended_witness :
    c5DemoParams.length = c5DemoParams.length ∧
    ∀ i (hi : i < c5DemoParams.length) (hr : i < c5DemoParams.length),
      (c5DemoParams.get ⟨i, hr⟩).1 = (c5DemoParams.get ⟨i, hi⟩).1 ∧
      ((∀ group name ps, (c5DemoParams.get ⟨i, hi⟩).2 ≠ JsValue.vblock group name ps) →
        (c5DemoParams.get ⟨i, hr⟩).2 = (c5DemoParams.get ⟨i, hi⟩).2) ∧
      (∀ group name ps, (c5DemoParams.get ⟨i, hi⟩).2 = JsValue.vblock group name ps →
        ∃ d fuel2 ep, c5DemoRegistry group name = some d ∧ 3 = fuel2 + 1 ∧
          evaluateParams c5DemoRegistry fuel2 (mergeParams d.params ps) = some ep ∧
          (c5DemoParams.get ⟨i, hr⟩).2 = d.run ep) :=
  c5_evaluate_params_amended c5DemoRegistry 3 c5DemoParams c5DemoParams
    (by simp [evaluateParams, evaluateValue, c5DemoParams])

/-- Claim C8: duplicate live-id handling. Part 1: when `_addEvents`
(`addTheLiveEvents`, non-sub-chain path, no previously parked duplicates)
computes a live id that already exists in the live-event store, the new event
is not inserted into the chain queue (the queue is unchanged) but parked in
the chain's `duplicateEventsToAdd` under that id, and the existing live event
with that id is set to run mode `"cancel"`. Part 2: when that live event is
removed, the removal effect re-adds the parked event (via a deferred
`_addEvents` into the same chain) and clears the parked entry. -/
theorem c8_duplicate_live_id :
    (∀ (eventReg : EventRegistry) (defPath : Option TimePath) (freshId : EventBlock → String)
        (nowTime : Int) (st : AllState) (B : EventBlock) (chainId liveIdDup : String)
        (c : Chain) (exEv : LiveEvent),
      B.options.liveId = some liveIdDup →
      getChainState st chainId = some c →
      c.duplicateEventsToAdd = [] →
      getLiveEventState st liveIdDup = some exEv →
      (addTheLiveEvents eventReg defPath freshId nowTime st [B]
          (c8ListOptions chainId) chainId false).chains.lookup chainId
        = some { c with duplicateEventsToAdd := [(liveIdDup,
            mergeEventOptions eventReg (c8ListOptions chainId) chainId B)] } ∧
      (addTheLiveEvents eventReg defPath freshId nowTime st [B]
          (c8ListOptions chainId) chainId false).liveEvents
        = updateAssoc st.liveEvents liveIdDup
            ({ exEv with nowRunMode := some RunMode.cancel })) ∧
    (∀ (prevState st : AllState) (liveId : String) (prevEv : LiveEvent) (c : Chain)
        (dup : EventBlock),
      getLiveEventState prevState liveId = some prevEv →
      prevEv.chainId ≠ "" →
      getChainState st prevEv.chainId = some c →
      c.duplicateEventsToAdd.lookup liveId = some dup →
      (whenLiveEventRemoved prevState st liveId).1.chains
        = updateAssoc st.chains prevEv.chainId { c with duplicateEventsToAdd := eraseAssoc c.duplicateEventsToAdd liveId } ∧
      (whenLiveEventRemoved prevState st liveId).1.liveEvents = st.liveEvents ∧
      (whenLiveEventRemoved prevState st liveId).2
        = [EngineAction.stopElapsedTimeEffect liveId,
            EngineAction.deferredAddEvents [dup] prevEv.chainId]) := by
  constructor
  · intro eventReg defPath freshId nowTime st B chainId liveIdDup c exEv
      hBlive hc hpark hex
    have hmb : (mergeEventOptions eventReg (c8ListOptions chainId) chainId B).options.liveId
        = some liveIdDup := by
      simp [mergeEventOptions, hBlive]
    have hsome : (st.chains.lookup chainId).isSome := by
      rw [show st.chains.lookup chainId = some c from hc]
      rfl
    have hoLive : (c8ListOptions chainId).liveId = none := rfl
    have hoChain : (c8ListOptions chainId).chainId = some chainId := rfl
    have hoPrio : (c8ListOptions chainId).hasPriority = none := rfl
    have hex' : List.lookup liveIdDup st.liveEvents = some exEv := by
      simpa [getLiveEventState] using hex
    constructor
    · simp [addTheLiveEvents, getLiveEventState, hc, hex', hpark, hmb,
        _makeLiveIdFromEventBlock, spreadAssoc, hoLive, hoChain, hoPrio]
      exact lookup_updateAssoc_eq st.chains chainId _ hsome
    · simp [addTheLiveEvents, getLiveEventState, hc, hex', hpark, hmb,
        _makeLiveIdFromEventBlock, spreadAssoc, hoLive, hoChain, hoPrio]
  · intro prevState st liveId prevEv c dup hprev hcid hc hdup
    simp [whenLiveEventRemoved, hprev, hcid, hc, hdup]

theorem c8_duplicate_live_id_witness :
    ((addTheLiveEvents (fun _ _ => none) none (fun _ => "fresh") 1 c8DemoState
        [c8DemoBlock] (c8ListOptions "chainD") "chainD" false).chains.lookup "chainD"
      = some { id := "chainD", liveEventIds := ["dupL"], duplicateEventsToAdd := [("dupL",
          mergeEventOptions (fun _ _ => none) (c8ListOptions "chainD") "chainD" c8DemoBlock)] } ∧
      (addTheLiveEvents (fun _ _ => none) none (fun _ => "fresh") 1 c8DemoState
          [c8DemoBlock] (c8ListOptions "chainD") "chainD" false).liveEvents
        = updateAssoc c8DemoState.liveEvents "dupL"
            ({ c8DemoExisting with nowRunMode := some RunMode.cancel })) ∧
    ((whenLiveEventRemoved c8DemoState c8DemoParkedState "dupL").1.chains
      = updateAssoc c8DemoParkedState.chains "chainD" { c8DemoParkedChain with duplicateEventsToAdd := eraseAssoc c8DemoParkedChain.duplicateEventsToAdd "dupL" } ∧
      (whenLiveEventRemoved c8DemoState c8DemoParkedState "dupL").1.liveEvents
        = c8DemoParkedState.liveEvents ∧
      (whenLiveEventRemoved c8DemoState c8DemoParkedState "dupL").2
        = [EngineAction.stopElapsedTimeEffect "dupL",
            EngineAction.deferredAddEvents [c8DemoBlock] "chainD"]) :=
  ⟨c8_duplicate_live_id.1 (fun _ _ => none) none (fun _ => "fresh") 1 c8DemoState
      c8DemoBlock "chainD" "dupL" { id := "chainD", liveEventIds := ["dupL"] }
      c8DemoExisting rfl rfl rfl rfl,
    c8_duplicate_live_id.2 c8DemoState c8DemoParkedState "dupL" c8DemoExisting
      c8DemoParkedChain c8DemoBlock rfl (by decide) rfl rfl⟩
